import Mathlib

/-!
Verification of the Installer_Bot orchestration code (`bot.py`, `rundeck.py`)
against its natural-language specification.

The embedding is shallow: each Python function is translated into a Lean
function over explicit inputs standing for the external world (HTTP
responses of ServiceNow and Rundeck, database log outcomes).  Side effects
(messages sent to the chat, HTTP requests issued, database writes) are
collected into an explicit list of `Effect` values, in the order the source
performs them.
-/

set_option autoImplicit false

namespace InstallerBot

/-- One observable side effect of the bot, in source order.
`sendActivity` is `turn_context.send_activity`; `snGet`/`snPatch`/`snPost`
are the ServiceNow HTTP calls (incident lookup, state patch, incident
creation); `rundeckPost` is the Rundeck job-trigger POST; `logRequest` and
`logFeedbackRow` are the database writes; `consoleLog` is a `print`. -/
inductive Effect where
  | sendActivity (msg : String)
  | sendApprovalCard (incident software version requester : String)
  | sendFeedbackCard (incident software version status : String)
  | snGet (incident : String)
  | snPatch (incident stateCode : String)
  | snPost
  | rundeckPost (app : String) (version : Option String)
  | logRequest (incident software version status : String)
  | logFeedbackRow (incident software version rating comments status : String)
  | consoleLog (msg : String)
  deriving DecidableEq, Repr

/-- Outcome of one HTTP status poll against Rundeck
(`requests.get` in `check_job_status`): HTTP 200 with a JSON `status`
field, or a non-200 response. -/
inductive PollResponse where
  | ok (status : String)
  | httpError
  deriving DecidableEq, Repr

/-- The statuses `check_job_status` treats as final:
`["succeeded", "failed", "aborted"]` in `rundeck.py`. -/
def terminalStatuses : List String := ["succeeded", "failed", "aborted"]

/-- `run_rundeck_job` in `rundeck.py`: the POST returns execution id
`execId` on HTTP 200, and `None` otherwise.  The HTTP status code and the
id returned by the server are inputs of the model. -/
def run_rundeck_job (httpStatus : Nat) (execId : String) : Option String :=
  if httpStatus = 200 then some execId else none

/-- `check_job_status` in `rundeck.py`.  The source is
`while True: GET; if 200: return status if terminal else loop; else
return "error"` with a 5 second sleep between iterations.  `trace i` is
the response of the `i`-th poll.  The loop has no iteration bound in the
source, so the model takes explicit fuel: `none` means the loop is still
running after `fuel` polls. -/
def check_job_status : Nat → (Nat → PollResponse) → Option String
  | 0, _ => none
  | fuel + 1, trace =>
    match trace 0 with
    | PollResponse.ok status =>
        if terminalStatuses.contains status then some status
        else check_job_status fuel (fun i => trace (i + 1))
    | PollResponse.httpError => some "error"

/-- Result of `update_incident_state_sn` in `bot.py`: the Python function
returns a dict with a `success` key or a dict with an `error` key (the
caller tests `update_result.get("success")`). -/
inductive SNResult where
  | success
  | error (msg : String)
  deriving DecidableEq, Repr

/-- External-world inputs of one `update_incident_state_sn` call:
whether the incident-lookup GET succeeds at the HTTP level, whether the
lookup result list is non-empty, and whether the PATCH succeeds. -/
structure SNEnv where
  lookupOk : Bool
  found : Bool
  patchOk : Bool
  deriving DecidableEq, Repr

/-- Python `str.lower()` for the ASCII state names involved, embedded as
a character-wise map so that it evaluates inside the kernel. -/
def lower (s : String) : String := String.mk (s.data.map Char.toLower)

/-- The `state_map` dict lookup of `update_incident_state_sn`:
`{"new": "1", "in progress": "2", "closed": "7", "cancelled": "8"}.get(s)`
(the `.lower()` is applied by the caller of this helper). -/
def mappedState (s : String) : Option String :=
  if s = "new" then some "1"
  else if s = "in progress" then some "2"
  else if s = "closed" then some "7"
  else if s = "cancelled" then some "8"
  else none

/-- `update_incident_state_sn` in `bot.py`: GET the incident sys_id by
number; if the lookup fails or returns no record, return an error dict;
map the target state through `state_map` (lower-cased), returning an
error dict on an unknown state; otherwise PATCH the new state code.
The returned effect list records the HTTP calls in source order. -/
def update_incident_state_sn (env : SNEnv) (incident_number new_state : String) :
    SNResult × List Effect :=
  if env.lookupOk = false then
    (SNResult.error "lookup request failed", [Effect.snGet incident_number])
  else if env.found = false then
    (SNResult.error ("Incident " ++ incident_number ++ " not found."),
     [Effect.snGet incident_number])
  else
    match mappedState (lower new_state) with
    | none =>
        (SNResult.error ("Invalid state: " ++ new_state), [Effect.snGet incident_number])
    | some code =>
        if env.patchOk then
          (SNResult.success, [Effect.snGet incident_number, Effect.snPatch incident_number code])
        else
          (SNResult.error "patch request failed",
           [Effect.snGet incident_number, Effect.snPatch incident_number code])

/-- The approval data the bot stores in `self.pending_approval` when
switching to admin mode (`_switch_to_admin_mode`). -/
structure ApprovalData where
  incident_number : String
  software_name : String
  version : String
  requester : String
  deriving DecidableEq, Repr

/-- The mutable per-instance state of `MyBot`: `self.is_admin_mode` and
`self.pending_approval` (`none` models the empty dict `\x7b\x7d`). -/
structure BotState where
  is_admin_mode : Bool
  pending_approval : Option ApprovalData
  deriving DecidableEq, Repr

/-- `_reset_admin_mode` in `bot.py`. -/
def resetBot : BotState := BotState.mk false none

/-- The fields `_handle_admin_approval` / `_handle_admin_rejection` read
from the submitted card via `card_data.get(key, "")`; a missing field is
the empty string. -/
structure CardData where
  incident_number : String
  software_name : String
  version : String
  rejection_reason : String
  deriving DecidableEq, Repr

/-- External-world inputs of one `_handle_admin_approval` run:
the ServiceNow environment for the "in progress" update, the outcome of
the `log_software_request` call made before Rundeck (its return value is
discarded by the source), the HTTP status and execution id of the Rundeck
trigger POST, the poll trace and a poll budget for `check_job_status`,
the ServiceNow environment for the final closed/cancelled update, and the
outcome of the final log call (also discarded by the source). -/
structure ApprovalEnv where
  snFirst : SNEnv
  logApproveOk : Bool
  triggerHttpStatus : Nat
  triggerExecId : String
  pollTrace : Nat → PollResponse
  pollFuel : Nat
  snFinal : SNEnv
  logFinalOk : Bool

/-- The message sent after the "in progress" ServiceNow update in
`_handle_admin_approval` (success and failure variants). -/
def approval_update_msg (incident_number : String) : SNResult → String
  | SNResult.success =>
      "ServiceNow updated: Incident " ++ incident_number ++ " is now In Progress"
  | SNResult.error e => "Failed to update ServiceNow: " ++ e

/-- The "APPROVED by Admin" activity text of `_handle_admin_approval`. -/
def approved_msg (cd : CardData) : String :=
  "APPROVED by Admin. Incident: " ++ cd.incident_number ++ ". Software: " ++
    cd.software_name ++ " v" ++ cd.version ++ ". Triggering installation in Rundeck..."

/-- The Rundeck trigger payload adds the `version` option only when the
version string is truthy (`if version:` in `run_rundeck_job`). -/
def trigger_version_option (version : String) : Option String :=
  if version = "" then none else some version

/-- Everything `_handle_admin_approval` does before inspecting the result
of the Rundeck trigger: the "in progress" ServiceNow update and its
message, the approval announcement, the pre-Rundeck audit log write, and
the trigger POST itself. -/
def pre_trigger_effects (env : ApprovalEnv) (cd : CardData) : List Effect :=
  (update_incident_state_sn env.snFirst cd.incident_number "in progress").2 ++
  [Effect.sendActivity
     (approval_update_msg cd.incident_number
       (update_incident_state_sn env.snFirst cd.incident_number "in progress").1),
   Effect.sendActivity (approved_msg cd),
   Effect.logRequest cd.incident_number cd.software_name cd.version
     "Admin approved the software installation request",
   Effect.rundeckPost cd.software_name (trigger_version_option cd.version)]

/-- `_send_feedback_card`: the prompt activity followed by the feedback
card attachment. -/
def feedback_effects (cd : CardData) (installation_status : String) : List Effect :=
  [Effect.sendActivity "Please provide your feedback:",
   Effect.sendFeedbackCard cd.incident_number cd.software_name cd.version
     installation_status]

/-- Step 4 of `_handle_admin_approval`: the ServiceNow update and the
outcome activity chosen from the final Rundeck status. -/
def terminal_effects (env : ApprovalEnv) (cd : CardData) (final_status : String) :
    List Effect :=
  if final_status = "succeeded" then
    (update_incident_state_sn env.snFinal cd.incident_number "closed").2 ++
    [Effect.sendActivity
       ("Installation completed successfully via Rundeck for " ++
         cd.software_name ++ " " ++ cd.version)]
  else if final_status = "failed" ∨ final_status = "aborted" then
    (update_incident_state_sn env.snFinal cd.incident_number "cancelled").2 ++
    [Effect.sendActivity
       ("Installation failed in Rundeck for " ++ cd.software_name ++ " " ++ cd.version)]
  else
    [Effect.sendActivity "Could not determine Rundeck job status."]

/-- The `status_msg` variable of `_handle_admin_approval`. -/
def terminal_status_msg (final_status : String) : String :=
  if final_status = "succeeded" then "Rundeck job succeeded, software installed"
  else if final_status = "failed" ∨ final_status = "aborted" then
    "Rundeck job " ++ final_status
  else "Rundeck job error"

/-- The `installation_status` variable of `_handle_admin_approval`. -/
def terminal_installation_status (final_status : String) : String :=
  if final_status = "succeeded" then "success" else "failed"

/-- `_handle_admin_approval` in `bot.py`.  On trigger failure the source
sends a failure activity, sends the feedback card with status "failed"
and returns without `_reset_admin_mode`, so the bot state is unchanged.
On trigger success it polls `check_job_status`; `none` models the case
where that unbounded loop has not returned within the poll budget.  On a
final status it appends the terminal effects, the final audit log write,
the feedback card, and resets the admin mode. -/
def handle_admin_approval (s : BotState) (env : ApprovalEnv) (cd : CardData) :
    Option (List Effect × BotState) :=
  match run_rundeck_job env.triggerHttpStatus env.triggerExecId with
  | none =>
      some (pre_trigger_effects env cd ++
            [Effect.sendActivity "Failed to trigger Rundeck job. Please check configuration."] ++
            feedback_effects cd "failed", s)
  | some execution_id =>
      match check_job_status env.pollFuel env.pollTrace with
      | none => none
      | some final_status =>
          some (pre_trigger_effects env cd ++
                [Effect.sendActivity
                   ("Rundeck Job started (Execution ID: " ++ execution_id ++
                     "). Monitoring...")] ++
                terminal_effects env cd final_status ++
                [Effect.logRequest cd.incident_number cd.software_name cd.version
                   (terminal_status_msg final_status)] ++
                feedback_effects cd (terminal_installation_status final_status),
                resetBot)

/-- The "REJECTED by Admin" activity text of `_handle_admin_rejection`,
with the `or` default on the reason. -/
def rejected_msg (cd : CardData) : String :=
  "REJECTED by Admin. Incident: " ++ cd.incident_number ++ ". Software: " ++
    cd.software_name ++ " v" ++ cd.version ++ ". Reason: " ++
    (if cd.rejection_reason = "" then "No reason provided" else cd.rejection_reason) ++
    ". The installation request has been rejected."

/-- The message sent after the "cancelled" ServiceNow update in
`_handle_admin_rejection`. -/
def rejection_update_msg (incident_number : String) : SNResult → String
  | SNResult.success =>
      "ServiceNow updated: Incident " ++ incident_number ++ " is now Cancelled"
  | SNResult.error e => "Failed to update ServiceNow: " ++ e

/-- `_handle_admin_rejection` in `bot.py`: update the incident to
cancelled, announce the rejection, write the audit log row, reset admin
mode.  No Rundeck call and no feedback card appear in the source. -/
def handle_admin_rejection (env : SNEnv) (cd : CardData) : List Effect × BotState :=
  ((update_incident_state_sn env cd.incident_number "cancelled").2 ++
   [Effect.sendActivity
      (rejection_update_msg cd.incident_number
        (update_incident_state_sn env cd.incident_number "cancelled").1),
    Effect.sendActivity (rejected_msg cd),
    Effect.logRequest cd.incident_number cd.software_name cd.version
      "Admin rejected the request of Software Installation"],
   resetBot)

/-- External-world inputs of the `install` branch of
`_handle_card_submission`: `createResult` is the incident number extracted
from `create_incident_direct` (`none` when creation returned `None`; the
extraction can yield the literal "Unknown"), and `logOk` is the return
value of `log_software_request`. -/
structure InstallEnv where
  createResult : Option String
  logOk : Bool
  deriving DecidableEq, Repr

/-- The `install` branch of `_handle_card_submission` in `bot.py`.
If either the app or the version is falsy, only a warning activity is
sent.  Otherwise the incident is created; on success the number is
announced; a non-"Unknown" number is logged, and only if that log write
returns truthy does `_switch_to_admin_mode` run (admin flag set, pending
approval stored, approval card sent). -/
def handle_install_submission (s : BotState) (env : InstallEnv) (app version : String) :
    List Effect × BotState :=
  if app ≠ "" ∧ version ≠ "" then
    let eff0 : List Effect :=
      [Effect.sendActivity
         ("Creating ServiceNow Ticket for Installation of " ++ app ++
           " version " ++ version ++ "..."),
       Effect.snPost]
    match env.createResult with
    | none =>
        (eff0 ++ [Effect.consoleLog "Failed to create incident.",
                  Effect.sendActivity "Failed to create incident."], s)
    | some incident_number =>
        let eff1 := eff0 ++
          [Effect.sendActivity
             ("Incident created successfully! Incident Number: " ++ incident_number)]
        if incident_number ≠ "Unknown" then
          let eff2 := eff1 ++
            [Effect.logRequest incident_number app version
               "User initiated the request for the Software Installation"]
          if env.logOk then
            (eff2 ++ [Effect.sendActivity "Switching to Admin Mode...",
                      Effect.sendActivity "ADMIN NOTIFICATION",
                      Effect.sendApprovalCard incident_number app version "Guest"],
             BotState.mk true (some (ApprovalData.mk incident_number app version "Guest")))
          else
            (eff2 ++ [Effect.consoleLog
               ("Failed to log request for incident " ++ incident_number)], s)
        else
          (eff1 ++ [Effect.consoleLog "Cannot log request - incident number is unknown"], s)
  else
    ([Effect.sendActivity "Please select a version to install."], s)

/-- A card submission, as dispatched on `card_data.get("action", "")` by
`_handle_card_submission`. -/
inductive CardAction where
  | install (app version : String)
  | admin_approve (cd : CardData)
  | admin_reject (cd : CardData)
  | other

/-- The external-world inputs a card-submission turn may consume. -/
structure BotEnv where
  installEnv : InstallEnv
  approvalEnv : ApprovalEnv
  rejectEnv : SNEnv

/-- The dispatch of `_handle_card_submission` for the actions the claims
concern.  The source dispatches on the `action` string only: no branch
inspects `self.is_admin_mode` or `self.pending_approval`. -/
def handle_card_submission (s : BotState) (env : BotEnv) :
    CardAction → Option (List Effect × BotState)
  | CardAction.install app version =>
      some (handle_install_submission s env.installEnv app version)
  | CardAction.admin_approve cd => handle_admin_approval s env.approvalEnv cd
  | CardAction.admin_reject cd => some (handle_admin_rejection env.rejectEnv cd)
  | CardAction.other => some ([], s)

/-- Effect classifier: the Rundeck job-trigger POST. -/
def isTrigger : Effect → Bool
  | Effect.rundeckPost _ _ => true
  | _ => false

/-- Effect classifier: the feedback card attachment. -/
def isFeedbackCard : Effect → Bool
  | Effect.sendFeedbackCard _ _ _ _ => true
  | _ => false

/-- Effect classifier: the ServiceNow PATCH (any state code). -/
def isPatch : Effect → Bool
  | Effect.snPatch _ _ => true
  | _ => false

/-- Effect classifier: a ServiceNow PATCH to state code "8" (cancelled). -/
def isCancelPatch : Effect → Bool
  | Effect.snPatch _ code => code == "8"
  | _ => false

/-- Effect classifier: the admin approval card attachment. -/
def isApprovalCard : Effect → Bool
  | Effect.sendApprovalCard _ _ _ _ => true
  | _ => false

/-- Effect classifier: the incident-creation POST. -/
def isCreatePost : Effect → Bool
  | Effect.snPost => true
  | _ => false

/-- Effect classifier: a `log_software_request` write. -/
def isLogRequest : Effect → Bool
  | Effect.logRequest _ _ _ _ => true
  | _ => false

/-- Effect classifier: any HTTP call to an external system (ServiceNow
GET/PATCH/POST or the Rundeck trigger POST). -/
def isExternalCall : Effect → Bool
  | Effect.snGet _ => true
  | Effect.snPatch _ _ => true
  | Effect.snPost => true
  | Effect.rundeckPost _ _ => true
  | _ => false

/-- Fixture: a ServiceNow environment in which every HTTP call succeeds
and the incident exists. -/
def snAllOk : SNEnv := SNEnv.mk true true true

/-- Fixture: an existing ServiceNow environment whose incident lookup
returns an empty result list. -/
def snMissing : SNEnv := SNEnv.mk true false true

/-- Fixture: the card data of an approval/rejection for incident INC1,
software zoom 5.0, no rejection reason. -/
def cdZoom : CardData := CardData.mk "INC1" "zoom" "5.0" ""

/-- Fixture: the bot state right after `_switch_to_admin_mode` stored the
INC1 request. -/
def pendingZoom : BotState :=
  BotState.mk true (some (ApprovalData.mk "INC1" "zoom" "5.0" "Guest"))

/-- Fixture: a Rundeck status trace that reports "succeeded" on every
poll. -/
def succeedTrace : Nat → PollResponse := fun _ => PollResponse.ok "succeeded"

/-- Fixture: a Rundeck status trace that reports "failed" on every
poll. -/
def failTrace : Nat → PollResponse := fun _ => PollResponse.ok "failed"

/-- Fixture: a Rundeck status trace whose first poll gets a non-200
response and whose every later poll would report "succeeded". -/
def errorFirstTrace : Nat → PollResponse :=
  fun i => if i = 0 then PollResponse.httpError else PollResponse.ok "succeeded"

/-- Fixture: an approval run in which everything succeeds and the job
finishes with "succeeded". -/
def envTrigOk : ApprovalEnv :=
  ApprovalEnv.mk snAllOk true 200 "42" succeedTrace 1 snAllOk true

/-- Fixture: an approval run whose Rundeck trigger POST gets HTTP 500. -/
def envTrigFail : ApprovalEnv :=
  ApprovalEnv.mk snAllOk true 500 "" succeedTrace 1 snAllOk true

/-- Fixture: an approval run whose first status poll gets a non-200
response (and which would succeed from the second poll on). -/
def envPollError : ApprovalEnv :=
  ApprovalEnv.mk snAllOk true 200 "42" errorFirstTrace 10 snAllOk true

/-- Fixture: a full card-submission environment where every external
system behaves. -/
def botEnvOk : BotEnv :=
  BotEnv.mk (InstallEnv.mk (some "INC1") true) envTrigOk snAllOk

/-- C1: `check_job_status` never returns, at any poll budget, on a job
whose status endpoint answers HTTP 200 with status "running" on every
poll.  The source loop is `while True` with no maximum poll count, so it
polls forever and never forces the request into a Failed/"indeterminate"
outcome, contradicting the specified poll ceiling. -/
theorem check_job_status_running_never_returns :
    ∀ fuel : Nat, check_job_status fuel (fun _ => PollResponse.ok "running") = none := by
  intro fuel
  induction fuel with
  | zero => rfl
  | succ n ih =>
      simpa [check_job_status, terminalStatuses] using ih

/-- The effect list of `update_incident_state_sn` is the lookup GET
alone, or the lookup GET followed by a PATCH carrying the state code that
`state_map` assigns to the (lower-cased) target state. -/
theorem update_effects_cases (env : SNEnv) (inc st : String) :
    (update_incident_state_sn env inc st).2 = [Effect.snGet inc] ∨
    ∃ code, mappedState (lower st) = some code ∧
      (update_incident_state_sn env inc st).2 =
        [Effect.snGet inc, Effect.snPatch inc code] := by
  rcases env with ⟨lk, fd, pk⟩
  cases lk
  · left; rfl
  · cases fd
    · left; rfl
    · unfold update_incident_state_sn
      cases h : mappedState (lower st) with
      | none => left; simp [h]
      | some code =>
          right
          exact ⟨code, rfl, by cases pk <;> simp [h]⟩

/-- A predicate false on lookup GETs and on PATCHes counts zero among
the effects of `update_incident_state_sn`. -/
theorem update_countP_zero (env : SNEnv) (inc st : String) (p : Effect → Bool)
    (h1 : ∀ i, p (Effect.snGet i) = false)
    (h2 : ∀ i c, p (Effect.snPatch i c) = false) :
    ((update_incident_state_sn env inc st).2).countP p = 0 := by
  rcases update_effects_cases env inc st with h | ⟨code, _, h⟩ <;>
    simp [h, List.countP_cons, h1, h2]

/-- Every `update_incident_state_sn` run issues the incident-lookup GET. -/
theorem snGet_mem_update (env : SNEnv) (inc st : String) :
    Effect.snGet inc ∈ (update_incident_state_sn env inc st).2 := by
  rcases update_effects_cases env inc st with h | ⟨code, _, h⟩ <;> simp [h]

/-- The "in progress" update never PATCHes the cancelled state code:
its only possible PATCH carries code "2". -/
theorem update_inprogress_countP_cancel (env : SNEnv) (inc : String) :
    ((update_incident_state_sn env inc "in progress").2).countP isCancelPatch = 0 := by
  rcases update_effects_cases env inc "in progress" with h | ⟨code, hc, h⟩
  · simp [h, List.countP_cons, isCancelPatch]
  · have hcode : code = "2" := by
      have h2 : mappedState (lower "in progress") = some "2" := by decide
      rw [h2] at hc
      exact (Option.some.inj hc).symm
    subst hcode
    simp [h, List.countP_cons, isCancelPatch]

/-- When every ServiceNow call succeeds, the "closed" update resolves to
state code "7" (the `state_map` entry for closed). -/
theorem update_ok_closed (inc : String) :
    update_incident_state_sn snAllOk inc "closed" =
      (SNResult.success, [Effect.snGet inc, Effect.snPatch inc "7"]) := by
  have h : mappedState (lower "closed") = some "7" := by decide
  simp [update_incident_state_sn, snAllOk, h]

/-- When every ServiceNow call succeeds, the "cancelled" update resolves
to state code "8" (the `state_map` entry for cancelled). -/
theorem update_ok_cancelled (inc : String) :
    update_incident_state_sn snAllOk inc "cancelled" =
      (SNResult.success, [Effect.snGet inc, Effect.snPatch inc "8"]) := by
  have h : mappedState (lower "cancelled") = some "8" := by decide
  simp [update_incident_state_sn, snAllOk, h]

/-- The pre-trigger effects of an approval contain exactly one Rundeck
trigger POST. -/
theorem pre_trigger_countP_trigger (env : ApprovalEnv) (cd : CardData) :
    (pre_trigger_effects env cd).countP isTrigger = 1 := by
  unfold pre_trigger_effects
  rw [List.countP_append,
      update_countP_zero _ _ _ _ (fun _ => rfl) (fun _ _ => rfl)]
  simp [List.countP_cons, isTrigger]

/-- The pre-trigger effects of an approval contain no feedback card. -/
theorem pre_trigger_countP_feedback (env : ApprovalEnv) (cd : CardData) :
    (pre_trigger_effects env cd).countP isFeedbackCard = 0 := by
  unfold pre_trigger_effects
  rw [List.countP_append,
      update_countP_zero _ _ _ _ (fun _ => rfl) (fun _ _ => rfl)]
  simp [List.countP_cons, isFeedbackCard]

/-- The pre-trigger effects of an approval contain no PATCH to the
cancelled state code: the only ServiceNow update there targets
"in progress". -/
theorem pre_trigger_countP_cancel (env : ApprovalEnv) (cd : CardData) :
    (pre_trigger_effects env cd).countP isCancelPatch = 0 := by
  unfold pre_trigger_effects
  rw [List.countP_append, update_inprogress_countP_cancel]
  simp [List.countP_cons, isCancelPatch]

/-- The pre-trigger effects contain the incident-lookup GET. -/
theorem pre_trigger_mem_snGet (env : ApprovalEnv) (cd : CardData) :
    Effect.snGet cd.incident_number ∈ pre_trigger_effects env cd := by
  unfold pre_trigger_effects
  exact List.mem_append_left _ (snGet_mem_update _ _ _)

/-- The pre-trigger effects contain the Rundeck trigger POST. -/
theorem pre_trigger_mem_post (env : ApprovalEnv) (cd : CardData) :
    Effect.rundeckPost cd.software_name (trigger_version_option cd.version) ∈
      pre_trigger_effects env cd := by
  unfold pre_trigger_effects
  simp

/-- The feedback-card effects contain no Rundeck trigger POST. -/
theorem feedback_countP_trigger (cd : CardData) (st : String) :
    (feedback_effects cd st).countP isTrigger = 0 := by
  simp [feedback_effects, List.countP_cons, isTrigger]

/-- The feedback-card effects contain no ServiceNow PATCH. -/
theorem feedback_countP_cancel (cd : CardData) (st : String) :
    (feedback_effects cd st).countP isCancelPatch = 0 := by
  simp [feedback_effects, List.countP_cons, isCancelPatch]

/-- The terminal effects of an approval contain no Rundeck trigger
POST: after the job has run, only ServiceNow and the chat are touched. -/
theorem terminal_countP_trigger (env : ApprovalEnv) (cd : CardData) (fs : String) :
    (terminal_effects env cd fs).countP isTrigger = 0 := by
  unfold terminal_effects
  split
  · rw [List.countP_append,
        update_countP_zero _ _ _ _ (fun _ => rfl) (fun _ _ => rfl)]
    simp [List.countP_cons, isTrigger]
  · split
    · rw [List.countP_append,
          update_countP_zero _ _ _ _ (fun _ => rfl) (fun _ _ => rfl)]
      simp [List.countP_cons, isTrigger]
    · simp [List.countP_cons, isTrigger]

/-- A state that is (after lowering) none of the four `state_map` keys
maps to nothing. -/
theorem mappedState_none_of_not_mem (s : String)
    (h : s ∉ ["new", "in progress", "closed", "cancelled"]) :
    mappedState s = none := by
  simp only [List.mem_cons, List.not_mem_nil, or_false, not_or] at h
  obtain ⟨h1, h2, h3, h4⟩ := h
  simp [mappedState, h1, h2, h3, h4]

/-- The effects of a completed `_handle_admin_approval` run always start
with the pre-trigger effects, whichever way the trigger and the polling
went. -/
theorem approval_mem_pre (s : BotState) (env : ApprovalEnv) (cd : CardData)
    (eff : List Effect) (st : BotState)
    (h : handle_admin_approval s env cd = some (eff, st)) :
    ∀ e, e ∈ pre_trigger_effects env cd → e ∈ eff := by
  unfold handle_admin_approval at h
  cases htr : run_rundeck_job env.triggerHttpStatus env.triggerExecId with
  | none =>
      rw [htr] at h
      simp only [Option.some.injEq, Prod.mk.injEq] at h
      obtain ⟨h1, _⟩ := h
      subst h1
      intro e he
      exact List.mem_append_left _ (List.mem_append_left _ he)
  | some eid =>
      rw [htr] at h
      cases hc : check_job_status env.pollFuel env.pollTrace with
      | none => rw [hc] at h; simp at h
      | some fs =>
          rw [hc] at h
          simp only [Option.some.injEq, Prod.mk.injEq] at h
          obtain ⟨h1, _⟩ := h
          subst h1
          intro e he
          exact List.mem_append_left _ (List.mem_append_left _
            (List.mem_append_left _ (List.mem_append_left _ he)))

/-- Every completed `_handle_admin_approval` run contains exactly one
Rundeck trigger POST among its effects. -/
theorem approval_countP_trigger_one (s : BotState) (env : ApprovalEnv) (cd : CardData)
    (eff : List Effect) (st : BotState)
    (h : handle_admin_approval s env cd = some (eff, st)) :
    eff.countP isTrigger = 1 := by
  unfold handle_admin_approval at h
  cases htr : run_rundeck_job env.triggerHttpStatus env.triggerExecId with
  | none =>
      rw [htr] at h
      simp only [Option.some.injEq, Prod.mk.injEq] at h
      obtain ⟨h1, _⟩ := h
      subst h1
      simp [List.countP_append, pre_trigger_countP_trigger,
        feedback_countP_trigger, List.countP_cons, isTrigger]
  | some eid =>
      rw [htr] at h
      cases hc : check_job_status env.pollFuel env.pollTrace with
      | none => rw [hc] at h; simp at h
      | some fs =>
          rw [hc] at h
          simp only [Option.some.injEq, Prod.mk.injEq] at h
          obtain ⟨h1, _⟩ := h
          subst h1
          simp [List.countP_append, pre_trigger_countP_trigger,
            terminal_countP_trigger, feedback_countP_trigger,
            List.countP_cons, isTrigger]

/-- The effects of `_handle_admin_approval` do not depend on the bot
state it starts from: no branch of the source reads `is_admin_mode` or
`pending_approval`. -/
theorem approval_effects_state_independent (s s' : BotState) (env : ApprovalEnv)
    (cd : CardData) :
    (handle_admin_approval s env cd).map Prod.fst =
      (handle_admin_approval s' env cd).map Prod.fst := by
  unfold handle_admin_approval
  cases run_rundeck_job env.triggerHttpStatus env.triggerExecId with
  | none => rfl
  | some eid =>
      cases check_job_status env.pollFuel env.pollTrace with
      | none => rfl
      | some fs => rfl

/-- The `install` branch of the card handler never issues a Rundeck
trigger POST. -/
theorem install_countP_trigger (s : BotState) (env : InstallEnv) (app version : String) :
    ((handle_install_submission s env app version).1).countP isTrigger = 0 := by
  rcases env with ⟨cr, lg⟩
  cases cr <;> cases lg <;>
    simp only [handle_install_submission] <;>
    split_ifs <;>
    simp [List.countP_cons, isTrigger]

/-- The `install` branch of the card handler never sends a feedback
card. -/
theorem install_countP_feedback (s : BotState) (env : InstallEnv) (app version : String) :
    ((handle_install_submission s env app version).1).countP isFeedbackCard = 0 := by
  rcases env with ⟨cr, lg⟩
  cases cr <;> cases lg <;>
    simp only [handle_install_submission] <;>
    split_ifs <;>
    simp [List.countP_cons, isFeedbackCard]

/-- C2, counterexample: when the Rundeck trigger fails (HTTP 500) after
an approval of the pending INC1 request, the handler sends exactly one
feedback card and issues no PATCH to the cancelled state code — the
feedback stage IS entered and the ticket is NOT set to cancelled,
contrary to the claim. -/
theorem trigger_failure_feedback_cex :
    ((handle_admin_approval pendingZoom envTrigFail cdZoom).map
      (fun p => (p.1.countP isFeedbackCard, p.1.countP isCancelPatch, p.2))) =
      some (1, 0, pendingZoom) := by decide

/-- C2 (amended): when the job trigger fails after approval, the handler
reports the failure and proceeds to the feedback stage with installation
status "failed"; the ticket is not set to cancelled (no PATCH with the
cancelled state code is issued) and the bot state is left unchanged. -/
theorem trigger_failure_feedback (s : BotState) (env : ApprovalEnv) (cd : CardData)
    (h : env.triggerHttpStatus ≠ 200) :
    ∃ eff, handle_admin_approval s env cd = some (eff, s) ∧
      Effect.sendActivity "Failed to trigger Rundeck job. Please check configuration." ∈ eff ∧
      Effect.sendFeedbackCard cd.incident_number cd.software_name cd.version "failed" ∈ eff ∧
      eff.countP isCancelPatch = 0 := by
  have hrun : run_rundeck_job env.triggerHttpStatus env.triggerExecId = none := by
    simp [run_rundeck_job, h]
  refine ⟨pre_trigger_effects env cd ++
      [Effect.sendActivity "Failed to trigger Rundeck job. Please check configuration."] ++
      feedback_effects cd "failed", ?_, ?_, ?_, ?_⟩
  · simp only [handle_admin_approval, hrun]
  · simp [List.mem_append]
  · simp [List.mem_append, feedback_effects]
  · rw [List.countP_append, List.countP_append, pre_trigger_countP_cancel,
        feedback_countP_cancel]
    simp [List.countP_cons, isCancelPatch]

/-- C2 witness: the amended theorem applied to the concrete failing
trigger run. -/
theorem trigger_failure_feedback_witness :
    ∃ eff, handle_admin_approval pendingZoom envTrigFail cdZoom = some (eff, pendingZoom) ∧
      Effect.sendActivity "Failed to trigger Rundeck job. Please check configuration." ∈ eff ∧
      Effect.sendFeedbackCard "INC1" "zoom" "5.0" "failed" ∈ eff ∧
      eff.countP isCancelPatch = 0 :=
  trigger_failure_feedback pendingZoom envTrigFail cdZoom (by decide)

/-- C3, counterexample: with the bot NOT in admin mode and no pending
approval (the request is in no approval state at all), an
`admin_approve` card submission is still processed: it completes without
any error and issues five external HTTP calls (incident lookup and PATCH
to in-progress, Rundeck trigger POST, final lookup and PATCH), contrary
to the claimed `InvalidStateError` with no external calls. -/
theorem approve_without_pending_cex :
    ((handle_card_submission (BotState.mk false none) botEnvOk
        (CardAction.admin_approve cdZoom)).map
      (fun p => p.1.countP isExternalCall)) = some 5 := by decide

/-- C3 (amended): the card handler dispatches `admin_approve` on the
action string alone, with no state validation: the resulting effects are
identical from every bot state, and every completed run issues the
ServiceNow incident lookup and the Rundeck trigger POST.  No
`InvalidStateError` (or any error result) exists in the source. -/
theorem approve_no_state_validation :
    (∀ (s s' : BotState) (env : BotEnv) (cd : CardData),
        (handle_card_submission s env (CardAction.admin_approve cd)).map Prod.fst =
          (handle_card_submission s' env (CardAction.admin_approve cd)).map Prod.fst) ∧
    (∀ (s : BotState) (env : BotEnv) (cd : CardData) (eff : List Effect) (st : BotState),
        handle_card_submission s env (CardAction.admin_approve cd) = some (eff, st) →
        Effect.snGet cd.incident_number ∈ eff ∧
        Effect.rundeckPost cd.software_name (trigger_version_option cd.version) ∈ eff) := by
  constructor
  · intro s s' env cd
    simpa [handle_card_submission] using
      approval_effects_state_independent s s' env.approvalEnv cd
  · intro s env cd eff st h
    simp only [handle_card_submission] at h
    exact ⟨approval_mem_pre s env.approvalEnv cd eff st h _
             (pre_trigger_mem_snGet env.approvalEnv cd),
           approval_mem_pre s env.approvalEnv cd eff st h _
             (pre_trigger_mem_post env.approvalEnv cd)⟩

/-- C3 witness: the amended theorem applied to a concrete approval
submitted while the bot is not in admin mode. -/
theorem approve_no_state_validation_witness :
    Effect.snGet "INC1" ∈
      (pre_trigger_effects envTrigOk cdZoom ++
        [Effect.sendActivity "Rundeck Job started (Execution ID: 42). Monitoring..."] ++
        terminal_effects envTrigOk cdZoom "succeeded" ++
        [Effect.logRequest "INC1" "zoom" "5.0" (terminal_status_msg "succeeded")] ++
        feedback_effects cdZoom (terminal_installation_status "succeeded")) ∧
    Effect.rundeckPost "zoom" (trigger_version_option "5.0") ∈
      (pre_trigger_effects envTrigOk cdZoom ++
        [Effect.sendActivity "Rundeck Job started (Execution ID: 42). Monitoring..."] ++
        terminal_effects envTrigOk cdZoom "succeeded" ++
        [Effect.logRequest "INC1" "zoom" "5.0" (terminal_status_msg "succeeded")] ++
        feedback_effects cdZoom (terminal_installation_status "succeeded")) :=
  approve_no_state_validation.2 (BotState.mk false none) botEnvOk cdZoom _ resetBot (by decide)

/-- C4, counterexample: after the INC1 ticket is created, a failed
audit-log write (`log_software_request` returning falsy) blocks the
admin-approval stage — with the identical submission except a successful
log write, the approval card is sent and admin mode entered; with the
failed write, no approval card is sent and the bot state is unchanged.
The audit failure therefore does block the lifecycle step after it. -/
theorem audit_failure_blocks_cex :
    (((handle_install_submission (BotState.mk false none)
          (InstallEnv.mk (some "INC1") false) "zoom" "5.0").1).countP isApprovalCard = 0 ∧
      (handle_install_submission (BotState.mk false none)
          (InstallEnv.mk (some "INC1") false) "zoom" "5.0").2 = BotState.mk false none) ∧
    (((handle_install_submission (BotState.mk false none)
          (InstallEnv.mk (some "INC1") true) "zoom" "5.0").1).countP isApprovalCard = 1 ∧
      (handle_install_submission (BotState.mk false none)
          (InstallEnv.mk (some "INC1") true) "zoom" "5.0").2.is_admin_mode = true) := by
  decide

/-- C4 (amended): the audit writes inside `_handle_admin_approval` are
fire-and-forget — the handler behaves identically whatever
`log_software_request` returns there — but the initial request log in the
`install` card branch is NOT best-effort: when it fails, the
admin-approval stage is never entered (no approval card, bot state
unchanged). -/
theorem audit_logging_amended :
    (∀ (s : BotState) (cd : CardData) (u1 u2 : SNEnv) (t : Nat) (e : String)
        (tr : Nat → PollResponse) (f : Nat) (b1 b2 b1' b2' : Bool),
        handle_admin_approval s (ApprovalEnv.mk u1 b1 t e tr f u2 b2) cd =
          handle_admin_approval s (ApprovalEnv.mk u1 b1' t e tr f u2 b2') cd) ∧
    (∀ (s : BotState) (env : InstallEnv) (app version n : String),
        env.createResult = some n → n ≠ "Unknown" → env.logOk = false →
        ((handle_install_submission s env app version).1).countP isApprovalCard = 0 ∧
        (handle_install_submission s env app version).2 = s) := by
  constructor
  · intro s cd u1 u2 t e tr f b1 b2 b1' b2'
    rfl
  · intro s env app version n hcr hn hlg
    rcases env with ⟨cr, lg⟩
    simp only at hcr hlg
    subst hcr
    subst hlg
    simp only [handle_install_submission]
    split_ifs <;> simp_all [List.countP_cons, isApprovalCard]

/-- C4 witness: the amended theorem applied to the concrete failed
log write after INC1 was created. -/
theorem audit_logging_amended_witness :
    ((handle_install_submission (BotState.mk false none)
        (InstallEnv.mk (some "INC1") false) "zoom" "5.0").1).countP isApprovalCard = 0 ∧
    (handle_install_submission (BotState.mk false none)
        (InstallEnv.mk (some "INC1") false) "zoom" "5.0").2 = BotState.mk false none :=
  audit_logging_amended.2 (BotState.mk false none) (InstallEnv.mk (some "INC1") false)
    "zoom" "5.0" "INC1" rfl (by decide) rfl

/-- C5, counterexample: approving the same INC1 request twice — the
second approval starting from exactly the bot state the first one left
behind — issues two Rundeck trigger POSTs in total: nothing in the code
records that the request's job was already triggered. -/
theorem second_approval_triggers_again_cex :
    ((handle_admin_approval pendingZoom envTrigOk cdZoom).bind (fun p1 =>
      (handle_admin_approval p1.2 envTrigOk cdZoom).map
        (fun p2 => (p1.1 ++ p2.1).countP isTrigger))) = some 2 := by decide

/-- C5 (amended): the Rundeck job is triggered exactly once per
completed approval invocation, and only there — the rejection handler
and the install branch never trigger — but no per-request guard exists,
so each further approval of the same request triggers the job again. -/
theorem trigger_once_per_invocation :
    (∀ (s : BotState) (env : ApprovalEnv) (cd : CardData) (eff : List Effect)
        (st : BotState),
        handle_admin_approval s env cd = some (eff, st) →
        eff.countP isTrigger = 1) ∧
    (∀ (env : SNEnv) (cd : CardData),
        ((handle_admin_rejection env cd).1).countP isTrigger = 0) ∧
    (∀ (s : BotState) (env : InstallEnv) (app version : String),
        ((handle_install_submission s env app version).1).countP isTrigger = 0) := by
  refine ⟨approval_countP_trigger_one, ?_, install_countP_trigger⟩
  intro env cd
  unfold handle_admin_rejection
  rw [List.countP_append,
      update_countP_zero _ _ _ _ (fun _ => rfl) (fun _ _ => rfl)]
  simp [List.countP_cons, isTrigger]

/-- C5 witness: the amended theorem applied to the concrete successful
approval run, whose effect list holds exactly one trigger POST. -/
theorem trigger_once_per_invocation_witness :
    ∃ eff st, handle_admin_approval pendingZoom envTrigOk cdZoom = some (eff, st) ∧
      eff.countP isTrigger = 1 := by
  refine ⟨_, _, rfl, trigger_once_per_invocation.1 pendingZoom envTrigOk cdZoom _ _ rfl⟩

/-- C6, counterexample: a single non-200 status poll ends
`check_job_status` immediately with "error" even though every later poll
would have reported "succeeded" — there is no retry — and the approval
flow then reports an indeterminate status and proceeds to feedback with
installation status "failed".  The request outcome is thus altered by the
very first poll failure, contrary to the claim. -/
theorem poll_error_first_failure_cex :
    check_job_status 10 errorFirstTrace = some "error" ∧
    ((handle_admin_approval resetBot envPollError cdZoom).map
      (fun p => (p.1.contains (Effect.sendActivity "Could not determine Rundeck job status."),
                 p.1.countP isFeedbackCard))) = some (true, 1) := by decide

/-- C6 (amended): a non-200 response to any status poll makes
`check_job_status` return "error" at once, without retrying; the approval
flow then sends the indeterminate-status message and enters the feedback
stage with installation status "failed". -/
theorem poll_error_immediate (fuel : Nat) (trace : Nat → PollResponse)
    (h : trace 0 = PollResponse.httpError) :
    check_job_status (fuel + 1) trace = some "error" ∧
    ∀ (s : BotState) (env : ApprovalEnv) (cd : CardData),
      env.triggerHttpStatus = 200 → env.pollTrace = trace → env.pollFuel = fuel + 1 →
      ∃ eff, handle_admin_approval s env cd = some (eff, resetBot) ∧
        Effect.sendActivity "Could not determine Rundeck job status." ∈ eff ∧
        Effect.sendFeedbackCard cd.incident_number cd.software_name cd.version "failed" ∈
          eff := by
  have hstop : check_job_status (fuel + 1) trace = some "error" := by
    simp only [check_job_status]
    rw [h]
  refine ⟨hstop, ?_⟩
  intro s env cd h200 htr hfl
  have hcheck : check_job_status env.pollFuel env.pollTrace = some "error" := by
    rw [hfl, htr]; exact hstop
  have hrun : run_rundeck_job env.triggerHttpStatus env.triggerExecId =
      some env.triggerExecId := by
    simp [run_rundeck_job, h200]
  refine ⟨pre_trigger_effects env cd ++
      [Effect.sendActivity
         ("Rundeck Job started (Execution ID: " ++ env.triggerExecId ++ "). Monitoring...")] ++
      terminal_effects env cd "error" ++
      [Effect.logRequest cd.incident_number cd.software_name cd.version
         (terminal_status_msg "error")] ++
      feedback_effects cd (terminal_installation_status "error"), ?_, ?_, ?_⟩
  · simp only [handle_admin_approval, hrun, hcheck]
  · simp [List.mem_append, terminal_effects]
  · simp [List.mem_append, feedback_effects, terminal_installation_status]

/-- C6 witness: the amended theorem applied to the concrete
error-then-succeeded trace. -/
theorem poll_error_immediate_witness :
    check_job_status (9 + 1) errorFirstTrace = some "error" ∧
    ∃ eff, handle_admin_approval resetBot envPollError cdZoom = some (eff, resetBot) ∧
      Effect.sendActivity "Could not determine Rundeck job status." ∈ eff ∧
      Effect.sendFeedbackCard "INC1" "zoom" "5.0" "failed" ∈ eff := by
  obtain ⟨h1, h2⟩ := poll_error_immediate 9 errorFirstTrace (by decide)
  exact ⟨h1, h2 resetBot envPollError cdZoom rfl rfl rfl⟩

/-- C7: after a successful trigger, when polling ends with "succeeded"
the approval flow PATCHes the ticket to state code "7" (closed) and
enters the feedback stage with installation status "success"; when it
ends with "failed" or "aborted" it PATCHes the ticket to state code "8"
(cancelled) and enters the feedback stage with installation status
"failed". -/
theorem poll_terminal_transitions (s : BotState) (cd : CardData) (env : ApprovalEnv)
    (htrig : env.triggerHttpStatus = 200) (hsn : env.snFinal = snAllOk) :
    (check_job_status env.pollFuel env.pollTrace = some "succeeded" →
      ∃ eff, handle_admin_approval s env cd = some (eff, resetBot) ∧
        Effect.snPatch cd.incident_number "7" ∈ eff ∧
        Effect.sendFeedbackCard cd.incident_number cd.software_name cd.version
          "success" ∈ eff) ∧
    (∀ fs, fs = "failed" ∨ fs = "aborted" →
      check_job_status env.pollFuel env.pollTrace = some fs →
      ∃ eff, handle_admin_approval s env cd = some (eff, resetBot) ∧
        Effect.snPatch cd.incident_number "8" ∈ eff ∧
        Effect.sendFeedbackCard cd.incident_number cd.software_name cd.version
          "failed" ∈ eff) := by
  have hrun : run_rundeck_job env.triggerHttpStatus env.triggerExecId =
      some env.triggerExecId := by
    simp [run_rundeck_job, htrig]
  constructor
  · intro hc
    refine ⟨pre_trigger_effects env cd ++
        [Effect.sendActivity
           ("Rundeck Job started (Execution ID: " ++ env.triggerExecId ++ "). Monitoring...")] ++
        terminal_effects env cd "succeeded" ++
        [Effect.logRequest cd.incident_number cd.software_name cd.version
           (terminal_status_msg "succeeded")] ++
        feedback_effects cd (terminal_installation_status "succeeded"), ?_, ?_, ?_⟩
    · simp only [handle_admin_approval, hrun, hc]
    · simp [List.mem_append, terminal_effects, hsn, update_ok_closed]
    · simp [List.mem_append, feedback_effects, terminal_installation_status]
  · intro fs hfs hc
    rcases hfs with rfl | rfl
    · refine ⟨pre_trigger_effects env cd ++
          [Effect.sendActivity
             ("Rundeck Job started (Execution ID: " ++ env.triggerExecId ++ "). Monitoring...")] ++
          terminal_effects env cd "failed" ++
          [Effect.logRequest cd.incident_number cd.software_name cd.version
             (terminal_status_msg "failed")] ++
          feedback_effects cd (terminal_installation_status "failed"), ?_, ?_, ?_⟩
      · simp only [handle_admin_approval, hrun, hc]
      · simp [List.mem_append, terminal_effects, hsn, update_ok_cancelled]
      · simp [List.mem_append, feedback_effects, terminal_installation_status]
    · refine ⟨pre_trigger_effects env cd ++
          [Effect.sendActivity
             ("Rundeck Job started (Execution ID: " ++ env.triggerExecId ++ "). Monitoring...")] ++
          terminal_effects env cd "aborted" ++
          [Effect.logRequest cd.incident_number cd.software_name cd.version
             (terminal_status_msg "aborted")] ++
          feedback_effects cd (terminal_installation_status "aborted"), ?_, ?_, ?_⟩
      · simp only [handle_admin_approval, hrun, hc]
      · simp [List.mem_append, terminal_effects, hsn, update_ok_cancelled]
      · simp [List.mem_append, feedback_effects, terminal_installation_status]

/-- C7 witness: the theorem applied to the concrete run whose every poll
reports "succeeded". -/
theorem poll_terminal_transitions_witness :
    ∃ eff, handle_admin_approval resetBot envTrigOk cdZoom = some (eff, resetBot) ∧
      Effect.snPatch "INC1" "7" ∈ eff ∧
      Effect.sendFeedbackCard "INC1" "zoom" "5.0" "success" ∈ eff :=
  (poll_terminal_transitions resetBot cdZoom envTrigOk rfl rfl).1 (by decide)

/-- C8: the rejection handler never triggers a Rundeck job and never
sends a feedback card; it writes the rejection audit row, resets the
admin mode, and — when ServiceNow behaves — PATCHes the ticket to state
code "8" (cancelled). -/
theorem rejection_terminal (env : SNEnv) (cd : CardData) :
    ((handle_admin_rejection env cd).1).countP isTrigger = 0 ∧
    ((handle_admin_rejection env cd).1).countP isFeedbackCard = 0 ∧
    Effect.logRequest cd.incident_number cd.software_name cd.version
        "Admin rejected the request of Software Installation" ∈
      (handle_admin_rejection env cd).1 ∧
    (handle_admin_rejection env cd).2 = resetBot ∧
    (env = snAllOk →
      Effect.snPatch cd.incident_number "8" ∈ (handle_admin_rejection env cd).1) := by
  refine ⟨?_, ?_, ?_, rfl, ?_⟩
  · unfold handle_admin_rejection
    rw [List.countP_append,
        update_countP_zero _ _ _ _ (fun _ => rfl) (fun _ _ => rfl)]
    simp [List.countP_cons, isTrigger]
  · unfold handle_admin_rejection
    rw [List.countP_append,
        update_countP_zero _ _ _ _ (fun _ => rfl) (fun _ _ => rfl)]
    simp [List.countP_cons, isFeedbackCard]
  · unfold handle_admin_rejection
    simp
  · rintro rfl
    unfold handle_admin_rejection
    simp [update_ok_cancelled]

/-- C8 witness: the theorem applied to the rejection of the INC1 request
with every ServiceNow call succeeding. -/
theorem rejection_terminal_witness :
    ((handle_admin_rejection snAllOk cdZoom).1).countP isTrigger = 0 ∧
    ((handle_admin_rejection snAllOk cdZoom).1).countP isFeedbackCard = 0 ∧
    (handle_admin_rejection snAllOk cdZoom).2 = resetBot ∧
    Effect.snPatch "INC1" "8" ∈ (handle_admin_rejection snAllOk cdZoom).1 := by
  have h := rejection_terminal snAllOk cdZoom
  exact ⟨h.1, h.2.1, h.2.2.2.1, h.2.2.2.2 rfl⟩

/-- C9: a ticket-state update whose lower-cased target state is none of
new / in progress / closed / cancelled, or whose incident number matches
no existing incident, returns an error dict and never issues the PATCH
request. -/
theorem update_invalid_inputs (env : SNEnv) (inc st : String)
    (h : lower st ∉ ["new", "in progress", "closed", "cancelled"] ∨ env.found = false) :
    (∃ msg, (update_incident_state_sn env inc st).1 = SNResult.error msg) ∧
    ((update_incident_state_sn env inc st).2).countP isPatch = 0 := by
  rcases env with ⟨lk, fd, pk⟩
  cases lk
  · exact ⟨⟨_, rfl⟩, by simp [update_incident_state_sn, List.countP_cons, isPatch]⟩
  · cases fd
    · exact ⟨⟨_, rfl⟩, by simp [update_incident_state_sn, List.countP_cons, isPatch]⟩
    · rcases h with h | h
      · have hm := mappedState_none_of_not_mem _ h
        exact ⟨⟨"Invalid state: " ++ st, by simp [update_incident_state_sn, hm]⟩,
               by simp [update_incident_state_sn, hm, List.countP_cons, isPatch]⟩
      · simp at h

/-- C9 witness: updating INC1 to the unsupported state "resolved" errors
without a PATCH even though the incident exists. -/
theorem update_invalid_inputs_witness :
    (∃ msg, (update_incident_state_sn snAllOk "INC1" "resolved").1 = SNResult.error msg) ∧
    ((update_incident_state_sn snAllOk "INC1" "resolved").2).countP isPatch = 0 :=
  update_invalid_inputs snAllOk "INC1" "resolved" (Or.inl (by decide))

/-- C10: an `install` card submission with an empty app or version sends
only the warning activity and leaves the bot state unchanged — no
incident-creation POST, no request log write, no approval card. -/
theorem install_missing_fields (s : BotState) (env : InstallEnv) (app version : String)
    (h : app = "" ∨ version = "") :
    handle_install_submission s env app version =
      ([Effect.sendActivity "Please select a version to install."], s) ∧
    ((handle_install_submission s env app version).1).countP isCreatePost = 0 ∧
    ((handle_install_submission s env app version).1).countP isLogRequest = 0 ∧
    ((handle_install_submission s env app version).1).countP isApprovalCard = 0 := by
  have hneg : ¬(app ≠ "" ∧ version ≠ "") := by
    rcases h with rfl | rfl <;> simp
  have he : handle_install_submission s env app version =
      ([Effect.sendActivity "Please select a version to install."], s) := by
    simp only [handle_install_submission]
    rw [if_neg hneg]
  refine ⟨he, ?_, ?_, ?_⟩ <;> rw [he] <;>
    simp [List.countP_cons, isCreatePost, isLogRequest, isApprovalCard]

/-- C10 witness: the theorem applied to a submission with an empty
version field. -/
theorem install_missing_fields_witness :
    handle_install_submission (BotState.mk false none) (InstallEnv.mk (some "INC1") true)
        "zoom" "" =
      ([Effect.sendActivity "Please select a version to install."],
       BotState.mk false none) ∧
    ((handle_install_submission (BotState.mk false none)
        (InstallEnv.mk (some "INC1") true) "zoom" "").1).countP isCreatePost = 0 ∧
    ((handle_install_submission (BotState.mk false none)
        (InstallEnv.mk (some "INC1") true) "zoom" "").1).countP isLogRequest = 0 ∧
    ((handle_install_submission (BotState.mk false none)
        (InstallEnv.mk (some "INC1") true) "zoom" "").1).countP isApprovalCard = 0 :=
  install_missing_fields (BotState.mk false none) (InstallEnv.mk (some "INC1") true)
    "zoom" "" (Or.inr rfl)

end InstallerBot
